import Mathlib

/-!
Verification of the cargo-cli scaffolding core (src/run.rs, src/tmpl.rs,
src/error.rs, src/main.rs).

The development shallowly embeds the template catalog, the file
materializer, the dependency builder and the manifest merger.  External
collaborators (the toml crate text layer, the crates.io registry and the
mustache renderer) enter as function parameters or, where a claim is about
their contract, as definitions modelled from the specification and marked
as such in their doc comments.
-/

set_option maxRecDepth 100000

namespace CargoCli

/-- Registry host constant REGISTRY_HOST from tmpl.rs. -/
def REGISTRY_HOST : String := "https://crates.io"

/-- Template constant CARGO_TOML_README from tmpl.rs. -/
def CARGO_TOML_README : String :=
  "README.md"

/-- Template constant CLAP_MAIN_RS from tmpl.rs. -/
def CLAP_MAIN_RS : String :=
  "//! \x60\x7b\x7b name \x7d\x7d\x60 0.1.0\n#![deny(missing_docs)]\n#[macro_use]\nextern crate error_chain;\nextern crate clap;\n\nmod error;\nmod run;\n\nuse std::io::\x7bself, Write\x7d;\nuse std::process;\n\n/// CLI Entry Point\nfn main() \x7b\n    match run::run() \x7b\n        Ok(i) => process::exit(i),\n        Err(e) => \x7b\n            writeln!(io::stderr(), \"\x7b\x7d\", e).expect(\"Unable to write to stderr!\");\n            process::exit(1)\n        \x7d\n    \x7d\n\x7d"

/-- Template constant CLAP_RUN_RS from tmpl.rs. -/
def CLAP_RUN_RS : String :=
  "//! \x60\x7b\x7b name \x7d\x7d\x60 runtime\nuse clap::App;\nuse error::Result;\nuse std::io::\x7bself, Write\x7d;\n\n/// CLI Runtime\npub fn run() -> Result<i32> \x7b\n    let _matches = App::new(env!(\"CARGO_PKG_NAME\"))\n                      .version(env!(\"CARGO_PKG_VERSION\"))\n                      .author(env!(\"CARGO_PKG_AUTHORS\"))\n                      .about(\"Prints \x27Hello, Rustaceans!\x27 to stdout\")\n                      .get_matches();\n    writeln!(io::stdout(), \"Hello, Rustaceans!\")?;\n    Ok(0)\n\x7d"

/-- Template constant CLAP_ERROR_RS from tmpl.rs. -/
def CLAP_ERROR_RS : String :=
  "//! \x60\x7b\x7b name \x7d\x7d\x60 errors\nerror_chain!\x7b\n    foreign_links \x7b\n        Io(::std::io::Error);\n    \x7d\n\x7d"

/-- Template constant DOCOPT_MAIN_RS from tmpl.rs. -/
def DOCOPT_MAIN_RS : String :=
  "//! \x60\x7b\x7b name \x7d\x7d\x60 0.1.0\n#[macro_use]\nextern crate error_chain;\n#[macro_use]\nextern crate serde_derive;\nextern crate docopt;\n\nmod error;\nmod run;\n\nuse std::io::\x7bself, Write\x7d;\nuse std::process;\n\n/// CLI Entry Point\nfn main() \x7b\n    match run::run() \x7b\n        Ok(i) => process::exit(i),\n        Err(e) => \x7b\n            writeln!(io::stderr(), \"\x7b\x7d\", e).expect(\"Unable to write to stderr!\");\n            process::exit(1)\n        \x7d\n    \x7d\n\x7d"

/-- Template constant DOCOPT_RUN_RS from tmpl.rs. -/
def DOCOPT_RUN_RS : String :=
  "//! \x60\x7b\x7b name \x7d\x7d\x60 runtime\nuse docopt::Docopt;\nuse error::Result;\nuse std::io::\x7bself, Write\x7d;\n\n/// Write the Docopt usage string.\nconst USAGE: &str = \"\nUsage: \x7b\x7b name \x7d\x7d ( -h | \x2d-help )\n       \x7b\x7b name \x7d\x7d ( -V | \x2d-version )\n\nOptions:\n    -h \x2d-help     Show this screen.\n    -v \x2d-version  Show version.\n\";\n\n/// Command line arguments\n#[derive(Debug, Deserialize)]\nstruct Args;\n\n/// CLI Runtime\npub fn run() -> Result<i32> \x7b\n    let _args: Args = Docopt::new(USAGE).and_then(|d| d.deserialize())?;\n    writeln!(io::stdout(), \"Hello, Rustaceans!\")?;\n    Ok(0)\n\x7d"

/-- Template constant DOCOPT_ERROR_RS from tmpl.rs. -/
def DOCOPT_ERROR_RS : String :=
  "//! \x60\x7b\x7b name \x7d\x7d\x60 errors\nerror_chain!\x7b\n    foreign_links \x7b\n        Docopt(::docopt::Error);\n        Io(::std::io::Error);\n    \x7d\n\x7d"

/-- Template constant CARGO_TOML_BOTH from tmpl.rs. -/
def CARGO_TOML_BOTH : String :=
  "MIT/Apache-2.0"

/-- Template constant PREFIX_BOTH from tmpl.rs. -/
def PREFIX_BOTH : String :=
  "// Copyright (c) 2017 \x7b\x7b name \x7d\x7d developers\n//\n// Licensed under the Apache License, Version 2.0\n// <LICENSE-APACHE or http://www.apache.org/licenses/LICENSE-2.0> or the MIT\n// license <LICENSE-MIT or http://opensource.org/licenses/MIT>, at your\n// option. All files in the project carrying such notice may not be copied,\n// modified, or distributed except according to those terms.\n\n"

/-- Template constant CARGO_TOML_MIT from tmpl.rs. -/
def CARGO_TOML_MIT : String :=
  "MIT"

/-- Template constant PREFIX_MIT from tmpl.rs. -/
def PREFIX_MIT : String :=
  "// Copyright (c) 2017 \x7b\x7b name \x7d\x7d developers\n//\n// Licensed under the MIT license <LICENSE-MIT or http://opensource.org/licenses/MIT>.\n// All files in the project carrying such notice may not be copied,\n// modified, or distributed except according to those terms.\n\n"

/-- Template constant CARGO_TOML_APACHE from tmpl.rs. -/
def CARGO_TOML_APACHE : String :=
  "Apache-2.0"

/-- Template constant PREFIX_APACHE from tmpl.rs. -/
def PREFIX_APACHE : String :=
  "// Copyright (c) 2017 \x7b\x7b name \x7d\x7d developers\n//\n// Licensed under the Apache License, Version 2.0\n// <LICENSE-APACHE or http://www.apache.org/licenses/LICENSE-2.0>.\n// All files in the project carrying such notice may not be copied,\n// modified, or distributed except according to those terms.\n\n"

/-- Template constant LICENSE_MIT from tmpl.rs. -/
def LICENSE_MIT : String :=
  "Copyright (c) 2016 The Rust Project Developers\n\nPermission is hereby granted, free of charge, to any\nperson obtaining a copy of this software and associated\ndocumentation files (the \"Software\"), to deal in the\nSoftware without restriction, including without\nlimitation the rights to use, copy, modify, merge,\npublish, distribute, sublicense, and/or sell copies of\nthe Software, and to permit persons to whom the Software\nis furnished to do so, subject to the following\nconditions:\n\nThe above copyright notice and this permission notice\nshall be included in all copies or substantial portions\nof the Software.\n\nTHE SOFTWARE IS PROVIDED \"AS IS\", WITHOUT WARRANTY OF\nANY KIND, EXPRESS OR IMPLIED, INCLUDING BUT NOT LIMITED\nTO THE WARRANTIES OF MERCHANTABILITY, FITNESS FOR A\nPARTICULAR PURPOSE AND NONINFRINGEMENT. IN NO EVENT\nSHALL THE AUTHORS OR COPYRIGHT HOLDERS BE LIABLE FOR ANY\nCLAIM, DAMAGES OR OTHER LIABILITY, WHETHER IN AN ACTION\nOF CONTRACT, TORT OR OTHERWISE, ARISING FROM, OUT OF OR\nIN CONNECTION WITH THE SOFTWARE OR THE USE OR OTHER\nDEALINGS IN THE SOFTWARE.\n\n"

/-- Template constant LICENSE_APACHE from tmpl.rs. -/
def LICENSE_APACHE : String :=
  "                              Apache License\n                        Version 2.0, January 2004\n                     http://www.apache.org/licenses/\n\nTERMS AND CONDITIONS FOR USE, REPRODUCTION, AND DISTRIBUTION\n\n1. Definitions.\n\n   \"License\" shall mean the terms and conditions for use, reproduction,\n   and distribution as defined by Sections 1 through 9 of this document.\n\n   \"Licensor\" shall mean the copyright owner or entity authorized by\n   the copyright owner that is granting the License.\n\n   \"Legal Entity\" shall mean the union of the acting entity and all\n   other entities that control, are controlled by, or are under common\n   control with that entity. For the purposes of this definition,\n   \"control\" means (i) the power, direct or indirect, to cause the\n   direction or management of such entity, whether by contract or\n   otherwise, or (ii) ownership of fifty percent (50%) or more of the\n   outstanding shares, or (iii) beneficial ownership of such entity.\n\n   \"You\" (or \"Your\") shall mean an individual or Legal Entity\n   exercising permissions granted by this License.\n\n   \"Source\" form shall mean the preferred form for making modifications,\n   including but not limited to software source code, documentation\n   source, and configuration files.\n\n   \"Object\" form shall mean any form resulting from mechanical\n   transformation or translation of a Source form, including but\n   not limited to compiled object code, generated documentation,\n   and conversions to other media types.\n\n   \"Work\" shall mean the work of authorship, whether in Source or\n   Object form, made available under the License, as indicated by a\n   copyright notice that is included in or attached to the work\n   (an example is provided in the Appendix below).\n\n   \"Derivative Works\" shall mean any work, whether in Source or Object\n   form, that is based on (or derived from) the Work and for which the\n   editorial revisions, annotations, elaborations, or other modifications\n   represent, as a whole, an original work of authorship. For the purposes\n   of this License, Derivative Works shall not include works that remain\n   separable from, or merely link (or bind by name) to the interfaces of,\n   the Work and Derivative Works thereof.\n\n   \"Contribution\" shall mean any work of authorship, including\n   the original version of the Work and any modifications or additions\n   to that Work or Derivative Works thereof, that is intentionally\n   submitted to Licensor for inclusion in the Work by the copyright owner\n   or by an individual or Legal Entity authorized to submit on behalf of\n   the copyright owner. For the purposes of this definition, \"submitted\"\n   means any form of electronic, verbal, or written communication sent\n   to the Licensor or its representatives, including but not limited to\n   communication on electronic mailing lists, source code control systems,\n   and issue tracking systems that are managed by, or on behalf of, the\n   Licensor for the purpose of discussing and improving the Work, but\n   excluding communication that is conspicuously marked or otherwise\n   designated in writing by the copyright owner as \"Not a Contribution.\"\n\n   \"Contributor\" shall mean Licensor and any individual or Legal Entity\n   on behalf of whom a Contribution has been received by Licensor and\n   subsequently incorporated within the Work.\n\n2. Grant of Copyright License. Subject to the terms and conditions of\n   this License, each Contributor hereby grants to You a perpetual,\n   worldwide, non-exclusive, no-charge, royalty-free, irrevocable\n   copyright license to reproduce, prepare Derivative Works of,\n   publicly display, publicly perform, sublicense, and distribute the\n   Work and such Derivative Works in Source or Object form.\n\n3. Grant of Patent License. Subject to the terms and conditions of\n   this License, each Contributor hereby grants to You a perpetual,\n   worldwide, non-exclusive, no-charge, royalty-free, irrevocable\n   (except as stated in this section) patent license to make, have made,\n   use, offer to sell, sell, import, and otherwise transfer the Work,\n   where such license applies only to those patent claims licensable\n   by such Contributor that are necessarily infringed by their\n   Contribution(s) alone or by combination of their Contribution(s)\n   with the Work to which such Contribution(s) was submitted. If You\n   institute patent litigation against any entity (including a\n   cross-claim or counterclaim in a lawsuit) alleging that the Work\n   or a Contribution incorporated within the Work constitutes direct\n   or contributory patent infringement, then any patent licenses\n   granted to You under this License for that Work shall terminate\n   as of the date such litigation is filed.\n\n4. Redistribution. You may reproduce and distribute copies of the\n   Work or Derivative Works thereof in any medium, with or without\n   modifications, and in Source or Object form, provided that You\n   meet the following conditions:\n\n   (a) You must give any other recipients of the Work or\n       Derivative Works a copy of this License; and\n\n   (b) You must cause any modified files to carry prominent notices\n       stating that You changed the files; and\n\n   (c) You must retain, in the Source form of any Derivative Works\n       that You distribute, all copyright, patent, trademark, and\n       attribution notices from the Source form of the Work,\n       excluding those notices that do not pertain to any part of\n       the Derivative Works; and\n\n   (d) If the Work includes a \"NOTICE\" text file as part of its\n       distribution, then any Derivative Works that You distribute must\n       include a readable copy of the attribution notices contained\n       within such NOTICE file, excluding those notices that do not\n       pertain to any part of the Derivative Works, in at least one\n       of the following places: within a NOTICE text file distributed\n       as part of the Derivative Works; within the Source form or\n       documentation, if provided along with the Derivative Works; or,\n       within a display generated by the Derivative Works, if and\n       wherever such third-party notices normally appear. The contents\n       of the NOTICE file are for informational purposes only and\n       do not modify the License. You may add Your own attribution\n       notices within Derivative Works that You distribute, alongside\n       or as an addendum to the NOTICE text from the Work, provided\n       that such additional attribution notices cannot be construed\n       as modifying the License.\n\n   You may add Your own copyright statement to Your modifications and\n   may provide additional or different license terms and conditions\n   for use, reproduction, or distribution of Your modifications, or\n   for any such Derivative Works as a whole, provided Your use,\n   reproduction, and distribution of the Work otherwise complies with\n   the conditions stated in this License.\n\n5. Submission of Contributions. Unless You explicitly state otherwise,\n   any Contribution intentionally submitted for inclusion in the Work\n   by You to the Licensor shall be under the terms and conditions of\n   this License, without any additional terms or conditions.\n   Notwithstanding the above, nothing herein shall supersede or modify\n   the terms of any separate license agreement you may have executed\n   with Licensor regarding such Contributions.\n\n6. Trademarks. This License does not grant permission to use the trade\n   names, trademarks, service marks, or product names of the Licensor,\n   except as required for reasonable and customary use in describing the\n   origin of the Work and reproducing the content of the NOTICE file.\n\n7. Disclaimer of Warranty. Unless required by applicable law or\n   agreed to in writing, Licensor provides the Work (and each\n   Contributor provides its Contributions) on an \"AS IS\" BASIS,\n   WITHOUT WARRANTIES OR CONDITIONS OF ANY KIND, either express or\n   implied, including, without limitation, any warranties or conditions\n   of TITLE, NON-INFRINGEMENT, MERCHANTABILITY, or FITNESS FOR A\n   PARTICULAR PURPOSE. You are solely responsible for determining the\n   appropriateness of using or redistributing the Work and assume any\n   risks associated with Your exercise of permissions under this License.\n\n8. Limitation of Liability. In no event and under no legal theory,\n   whether in tort (including negligence), contract, or otherwise,\n   unless required by applicable law (such as deliberate and grossly\n   negligent acts) or agreed to in writing, shall any Contributor be\n   liable to You for damages, including any direct, indirect, special,\n   incidental, or consequential damages of any character arising as a\n   result of this License or out of the use or inability to use the\n   Work (including but not limited to damages for loss of goodwill,\n   work stoppage, computer failure or malfunction, or any and all\n   other commercial damages or losses), even if such Contributor\n   has been advised of the possibility of such damages.\n\n9. Accepting Warranty or Additional Liability. While redistributing\n   the Work or Derivative Works thereof, You may choose to offer,\n   and charge a fee for, acceptance of support, warranty, indemnity,\n   or other liability obligations and/or rights consistent with this\n   License. However, in accepting such obligations, You may act only\n   on Your own behalf and on Your sole responsibility, not on behalf\n   of any other Contributor, and only if You agree to indemnify,\n   defend, and hold each Contributor harmless for any liability\n   incurred by, or claims asserted against, such Contributor by reason\n   of your accepting any such warranty or additional liability.\n\nEND OF TERMS AND CONDITIONS\n\nAPPENDIX: How to apply the Apache License to your work.\n\n   To apply the Apache License to your work, attach the following\n   boilerplate notice, with the fields enclosed by brackets \"[]\"\n   replaced with your own identifying information. (Don\x27t include\n   the brackets!)  The text should be enclosed in the appropriate\n   comment syntax for the file format. We also recommend that a\n   file or class name and description of purpose be included on the\n   same \"printed page\" as the copyright notice for easier\n   identification within third-party archives.\n\nCopyright [yyyy] [name of copyright owner]\n\nLicensed under the Apache License, Version 2.0 (the \"License\");\nyou may not use this file except in compliance with the License.\nYou may obtain a copy of the License at\n\n\thttp://www.apache.org/licenses/LICENSE-2.0\n\nUnless required by applicable law or agreed to in writing, software\ndistributed under the License is distributed on an \"AS IS\" BASIS,\nWITHOUT WARRANTIES OR CONDITIONS OF ANY KIND, either express or implied.\nSee the License for the specific language governing permissions and\nlimitations under the License.\n"

/-- Template constant README from tmpl.rs. -/
def README : String :=
  "# \x7b\x7b name \x7d\x7d\nA Rust command line interface generated by \x60cargo-cli\x60.\n"

/-- Error taxonomy from error.rs: the five ErrorKind variants plus the
foreign links reachable in the embedded core (Io, Rustache, TomlDe, TomlSe). -/
inductive Err where
  | io
  | rustache
  | tomlDe
  | tomlSe
  | invalidArgKind
  | invalidExitCode
  | invalidLicense
  | invalidPath
  | invalidSubCommand
deriving DecidableEq

/-- Display strings from error.rs.  The foreign links (io, rustache, toml)
display the wrapped external error value, whose text is not determined by
this repository; the fixed placeholders below stand for those texts.  The
five ErrorKind variants carry the exact display strings of error.rs. -/
def errDisplay : Err → String
  | .io => "io error"
  | .rustache => "rustache error"
  | .tomlDe => "toml deserialization error"
  | .tomlSe => "toml serialization error"
  | .invalidArgKind => "An invalid argument parser was specified!"
  | .invalidExitCode => "An invalid exit code was received from \x27cargo new\x27!"
  | .invalidLicense => "An invalid license type was specified!"
  | .invalidPath => "An invalid path was specified!"
  | .invalidSubCommand => "An invalid subcommand was specified!"

/-- Main from main.rs: an Ok(i) exit code becomes the process exit code with
nothing written to stderr; an Err(e) prints the error display on stderr and
exits with code 1. -/
def mainModel (r : Except Err Int) : Int × List String :=
  match r with
  | .ok i => (i, [])
  | .error e => (1, [errDisplay e])

/-- Output levels from run.rs.  A level gates terminal printing only
(debug prints when the level is at most Debug, info when at most Info);
the structured write events handed to the logging collaborator are modelled
independently of this presentation concern. -/
inductive Level where
  | trace
  | debug
  | info
  | warn
deriving DecidableEq

/-- Template types from tmpl.rs.  The source constructor Error is named
errorT here to avoid clashing with the Except constructor in pattern
positions. -/
inductive TemplateType where
  | main
  | run
  | errorT
  | mit
  | apache
  | readme
deriving DecidableEq

/-- Left brace character, kept out of character literal text. -/
def lbrace : Char := Char.ofNat 123

/-- Right brace character. -/
def rbrace : Char := Char.ofNat 125

/-- Test whether a list of characters starts with the nine-character tail of
the name placeholder: open brace, space, n, a, m, e, space, close brace,
close brace. -/
def tagTail : List Char → Bool
  | c2 :: c3 :: c4 :: c5 :: c6 :: c7 :: c8 :: c9 :: c10 :: _ =>
    c2 == lbrace && c3 == ' ' && c4 == 'n' && c5 == 'a' && c6 == 'm' &&
    c7 == 'e' && c8 == ' ' && c9 == rbrace && c10 == rbrace
  | _ => false

/-- Scanner for substitution: the first argument counts placeholder
characters still to be skipped after a placeholder was recognized. -/
def substNameAux (name : List Char) : Nat → List Char → List Char
  | n + 1, _ :: cs => substNameAux name n cs
  | _, [] => []
  | 0, c :: cs =>
    if c == lbrace && tagTail cs then name ++ substNameAux name 9 cs
    else c :: substNameAux name 0 cs

/-- Modelled from the spec: the mustache renderer (mustache crate, external
to this repository) performs pure literal substitution: every name
placeholder is replaced by the name binding exactly, and all other text is
copied verbatim. -/
def substName (name text : List Char) : List Char :=
  substNameAux name 0 text

/-- Scanner for well-formedness, with the same skip-counter scheme. -/
def mustacheOkAux : Nat → List Char → Bool
  | n + 1, _ :: cs => mustacheOkAux n cs
  | _, [] => true
  | 0, c :: cs =>
    if c == lbrace && cs.headD ' ' == lbrace then tagTail cs && mustacheOkAux 9 cs
    else mustacheOkAux 0 cs

/-- Modelled from the spec: a template text is well formed when every
double-open-brace in it begins an exact name placeholder, so the text
contains no control-flow constructs, partials or other mustache tags. -/
def mustacheOk (text : List Char) : Bool :=
  mustacheOkAux 0 text

/-- Modelled from the spec: render of a well-formed template is pure literal
substitution of the name binding; a malformed template surfaces as a fatal
template (Rustache) error. -/
def mRender (t : String) (name : String) : Except Err String :=
  if mustacheOk t.data then .ok (String.mk (substName name.data t.data)) else .error .rustache

/-- Container for file templates from tmpl.rs (struct Templates).  The
mustache Data kvs field, which always holds the single binding of name to
the project name, is embedded as that name string; the source field prefix
is named prefixT. -/
structure Templates where
  clap : Bool
  name : String
  mainT : String
  runT : String
  errorT : String
  prefixT : String
  mit : Option String
  apache : Option String
  readme : Option String
  query : Bool

/-- Constructor Templates::new from tmpl.rs. -/
def Templates.new (name : String) (clap mit apache readme query : Bool) : Templates :=
  let template : Templates :=
    { clap := clap, name := name, mainT := "", runT := "", errorT := "",
      prefixT := "", mit := none, apache := none, readme := none, query := query }
  let template := if mit && apache then { template with prefixT := PREFIX_BOTH } else template
  let template :=
    if mit then
      let template := { template with mit := some LICENSE_MIT }
      if !apache then { template with prefixT := PREFIX_MIT } else template
    else template
  let template :=
    if apache then
      let template := { template with apache := some LICENSE_APACHE }
      if !mit then { template with prefixT := PREFIX_APACHE } else template
    else template
  let template := if readme then { template with readme := some README } else template
  if clap then
    { template with mainT := CLAP_MAIN_RS, runT := CLAP_RUN_RS, errorT := CLAP_ERROR_RS }
  else
    { template with mainT := DOCOPT_MAIN_RS, runT := DOCOPT_RUN_RS, errorT := DOCOPT_ERROR_RS }

/-- Accessor has_license from tmpl.rs. -/
def Templates.hasLicense (t : Templates) : Bool :=
  t.mit.isSome || t.apache.isSome

/-- Accessor readme from tmpl.rs: renders the readme template when present. -/
def Templates.readmeRendered (t : Templates) : Option (Except Err String) :=
  match t.readme with
  | some r => some (mRender r t.name)
  | none => none

/-- Ordered dependency mapping, embedding the BTreeMap of run.rs as a
key-sorted association list. -/
abbrev DepsMap := List (String × String)

/-- Lexicographic character-list comparison, the order BTreeMap keys use. -/
def charListLt : List Char → List Char → Bool
  | [], [] => false
  | [], _ :: _ => true
  | _ :: _, [] => false
  | a :: as, b :: bs => if a < b then true else if b < a then false else charListLt as bs

/-- Lexicographic string comparison as a computable Bool. -/
def strLtB (a b : String) : Bool := charListLt a.data b.data

/-- BTreeMap insert: replaces the value at an existing key, otherwise places
the new entry at its sorted position. -/
def btInsert (k v : String) : DepsMap → DepsMap
  | [] => [(k, v)]
  | (k0, v0) :: rest =>
    if strLtB k k0 then (k, v) :: (k0, v0) :: rest
    else if k = k0 then (k, v) :: rest
    else (k0, v0) :: btInsert k v rest

/-- BTreeMap lookup by key. -/
def btLookup (k : String) : DepsMap → Option String
  | [] => none
  | (k0, v0) :: rest => if k0 = k then some v0 else btLookup k rest

/-- Result of the external registry lookup get_latest from tmpl.rs: the
crates.io fetch and JSON decode happen outside this repository, so the
whole lookup enters the model as a function that either yields the
max_version string or fails. -/
abbrev GetLatest := String → Except Unit String

/-- Rust unwrap_or_else on a Result, with the fallback constant. -/
def unwrapOrFb (r : Except Unit String) (fb : String) : String :=
  match r with
  | .ok v => v
  | .error _ => fb

/-- Method add_deps from tmpl.rs: inserts the resolved dependency versions
for the selected variant, querying the registry only when query is set and
falling back to the hard-coded constants otherwise or on lookup failure. -/
def addDeps (t : Templates) (gl : GetLatest) (deps : DepsMap) : DepsMap :=
  if t.clap then
    let p :=
      if t.query then
        (unwrapOrFb (gl "error-chain") "0.10.0", unwrapOrFb (gl "clap") "2.25.0")
      else
        ("0.10.0", "2.25.0")
    btInsert "clap" p.2 (btInsert "error-chain" p.1 deps)
  else
    let p :=
      if t.query then
        (unwrapOrFb (gl "error-chain") "0.10.0", unwrapOrFb (gl "docopt") "0.8.1",
         unwrapOrFb (gl "serde_derive") "1.0.9", unwrapOrFb (gl "serde") "1.0.9")
      else
        ("0.10.0", "0.8.1", "1.0.9", "1.0.9")
    btInsert "docopt" p.2.1
      (btInsert "error-chain" p.1
        (btInsert "serde" p.2.2.2 (btInsert "serde_derive" p.2.2.1 deps)))

/-- Structured TOML value tree, as far as the embedded manifest model needs
it: strings, arrays of strings, and tables. -/
inductive TomlVal where
  | str (s : String)
  | strArr (ss : List String)
  | table (kvs : List (String × TomlVal))

/-- A TOML document: the top-level table. -/
abbrev TomlDoc := List (String × TomlVal)

/-- First-match lookup of a key in a table. -/
def docLookup (k : String) : TomlDoc → Option TomlVal
  | [] => none
  | (k0, v0) :: rest => if k0 = k then some v0 else docLookup k rest

/-- Extract a string value. -/
def getStr : TomlVal → Option String
  | .str s => some s
  | _ => none

/-- Extract a string-array value. -/
def getStrArr : TomlVal → Option (List String)
  | .strArr ss => some ss
  | _ => none

/-- Extract a table value. -/
def getTable : TomlVal → Option TomlDoc
  | .table kvs => some kvs
  | _ => none

/-- Partial representation of the Cargo.toml package section (struct Package
from run.rs). -/
structure Package where
  name : String
  version : String
  authors : List String
  license : Option String
  readme : Option String

/-- Partial representation of the Cargo.toml config (struct Config from
run.rs). -/
structure Config where
  package : Package
  dependencies : Option DepsMap

/-- Serde semantics of an optional string field: an absent key gives none, a
present key must hold a string. -/
def optStrField (k : String) (tbl : TomlDoc) : Option (Option String) :=
  match docLookup k tbl with
  | none => some none
  | some v => (getStr v).map some

/-- Serde deserialization of the dependencies table into the BTreeMap: every
value must be a string; entries are inserted in document order. -/
def parseDeps : TomlDoc → Option DepsMap
  | [] => some []
  | (k, v) :: rest => do
    let s ← getStr v
    let m ← parseDeps rest
    return btInsert k s m

/-- Serde deserialization of the package section into Package: name, version
and authors are required, license and readme optional; unrecognized keys are
ignored, as serde does without a deny-unknown-fields attribute. -/
def parsePackage (tbl : TomlDoc) : Option Package := do
  let name ← (docLookup "name" tbl).bind getStr
  let version ← (docLookup "version" tbl).bind getStr
  let authors ← (docLookup "authors" tbl).bind getStrArr
  let license ← optStrField "license" tbl
  let readme ← optStrField "readme" tbl
  return { name := name, version := version, authors := authors,
           license := license, readme := readme }

/-- Serde deserialization of a whole document into Config (the typed half of
toml::from_str in run.rs): the package table is required, the dependencies
table optional; unrecognized top-level keys are ignored. -/
def configFromToml (doc : TomlDoc) : Option Config := do
  let pkgTbl ← (docLookup "package" doc).bind getTable
  let pkg ← parsePackage pkgTbl
  let deps ←
    match docLookup "dependencies" doc with
    | none => some none
    | some v => ((getTable v).bind parseDeps).map some
  return { package := pkg, dependencies := deps }

/-- Serde serialization of Package (the typed half of toml::to_string in
run.rs): fields are emitted in declaration order and absent options are
skipped, so only the five known keys can appear. -/
def packageToToml (p : Package) : TomlDoc :=
  [("name", .str p.name), ("version", .str p.version), ("authors", .strArr p.authors)]
    ++ (match p.license with
        | some l => [("license", TomlVal.str l)]
        | none => [])
    ++ (match p.readme with
        | some r => [("readme", TomlVal.str r)]
        | none => [])

/-- Serde serialization of Config: the package table followed by the
dependencies table when present. -/
def configToToml (c : Config) : TomlDoc :=
  [("package", .table (packageToToml c.package))]
    ++ (match c.dependencies with
        | some deps => [("dependencies", TomlVal.table (deps.map (fun kv => (kv.1, TomlVal.str kv.2))))]
        | none => [])

/-- Merge step of run from run.rs (lines 450 to 473, pure part): add the
resolved dependencies into the dependency mapping, set the readme field when
requested, and set the license field according to the mit and apache flags. -/
def mergeConfig (config : Config) (t : Templates) (readme mit apache : Bool)
    (gl : GetLatest) : Config :=
  let pkg := config.package
  let deps :=
    match config.dependencies with
    | some deps => deps
    | none => []
  let deps := addDeps t gl deps
  let pkg := if readme then { pkg with readme := some CARGO_TOML_README } else pkg
  let pkg :=
    if mit && apache then { pkg with license := some CARGO_TOML_BOTH }
    else if mit then { pkg with license := some CARGO_TOML_MIT }
    else if apache then { pkg with license := some CARGO_TOML_APACHE }
    else pkg
  { package := pkg, dependencies := some deps }

/-- Load-merge-store round trip at the structured document level: parse the
document into Config as run.rs does, merge, and serialize back. -/
def mergeManifestDoc (doc : TomlDoc) (t : Templates) (readme mit apache : Bool)
    (gl : GetLatest) : Option TomlDoc :=
  (configFromToml doc).map (fun c => configToToml (mergeConfig c t readme mit apache gl))


/-- On-disk state: an association of file paths (component lists) to
contents. -/
abbrev FS := List (List String × String)

/-- Lookup a file's content. -/
def fsLookup (fs : FS) (p : List String) : Option String :=
  match fs with
  | [] => none
  | (q, c) :: rest => if q = p then some c else fsLookup rest p

/-- Does a file exist? -/
def fsMem (fs : FS) (p : List String) : Bool :=
  (fsLookup fs p).isSome

/-- Write a file's content, replacing an existing entry in place. -/
def fsInsert (fs : FS) (p : List String) (c : String) : FS :=
  match fs with
  | [] => [(p, c)]
  | (q, d) :: rest => if q = p then (p, c) :: rest else (q, d) :: fsInsert rest p c

/-- A structured write event handed to the logging collaborator: the verb
and the message of a log_message call from run.rs. -/
structure Event where
  verb : String
  msg : String
deriving DecidableEq

/-- Orchestration state: the filesystem together with the events emitted so
far. -/
structure St where
  fs : FS
  events : List Event

/-- Call of debug from run.rs: hands the event to the logging collaborator.
In the source the terminal printing of the event is additionally gated by
the verbosity Level, a presentation concern outside the embedded core. -/
def debugEvent (st : St) (verb msg : String) : St :=
  { st with events := st.events ++ [{ verb := verb, msg := msg }] }

/-- Call of info from run.rs, identical to debug up to the printing gate. -/
def infoEvent (st : St) (verb msg : String) : St :=
  { st with events := st.events ++ [{ verb := verb, msg := msg }] }

/-- Append text to an open file, as a write_all call on a BufWriter does. -/
def fsAppendF (st : St) (p : List String) (s : String) : St :=
  { st with fs := fsInsert st.fs p ((fsLookup st.fs p).getD "" ++ s) }

/-- License-prefix half of write_file from run.rs: when the template set has
a license, render and write the prefix fragment first. -/
def writePrefix (st : St) (p : List String) (t : Templates) : Option Err × St :=
  if t.hasLicense then
    match mRender t.prefixT t.name with
    | .error e => (some e, st)
    | .ok pfx => (none, fsAppendF st p pfx)
  else (none, st)

/-- Function write_file from run.rs: writes the rendered content for the
template type to the already-opened file at p and reports the write event.
The level argument gates terminal printing only, per debugEvent. -/
def writeFile (st : St) (p : List String) (t : Templates) (ty : TemplateType)
    (_lvl : Level) : Option Err × St :=
  match ty with
  | .main =>
    match writePrefix st p t with
    | (some e, st1) => (some e, st1)
    | (none, st1) =>
      match mRender t.mainT t.name with
      | .error e => (some e, st1)
      | .ok body => (none, debugEvent (fsAppendF st1 p body) "Updated" "src/main.rs")
  | .errorT =>
    match writePrefix st p t with
    | (some e, st1) => (some e, st1)
    | (none, st1) =>
      match mRender t.errorT t.name with
      | .error e => (some e, st1)
      | .ok body => (none, debugEvent (fsAppendF st1 p body) "Updated" "src/error.rs")
  | .run =>
    match writePrefix st p t with
    | (some e, st1) => (some e, st1)
    | (none, st1) =>
      match mRender t.runT t.name with
      | .error e => (some e, st1)
      | .ok body => (none, debugEvent (fsAppendF st1 p body) "Updated" "src/run.rs")
  | .mit =>
    match t.mit with
    | some s => (none, debugEvent (fsAppendF st p s) "Created" "LICENSE-MIT")
    | none => (none, st)
  | .apache =>
    match t.apache with
    | some s => (none, debugEvent (fsAppendF st p s) "Created" "LICENSE-APACHE")
    | none => (none, st)
  | .readme =>
    match t.readmeRendered with
    | some (.ok s) => (none, debugEvent (fsAppendF st p s) "Created" "README.md")
    | some (.error _) => (none, st)
    | none => (none, st)

/-- Gate of create_file from run.rs: license and readme roles are written
only when the template set carries a body for them. -/
def createGate (t : Templates) : TemplateType → Bool
  | .mit => t.mit.isSome
  | .apache => t.apache.isSome
  | .readme => t.readme.isSome
  | _ => true

/-- Function create_file from run.rs: create-new-only materialization; the
open with create_new fails when the path already exists, leaving the state
untouched. -/
def createFile (st : St) (path : String) (parts : List String) (t : Templates)
    (ty : TemplateType) (lvl : Level) : Option Err × St :=
  let p := path :: parts
  if createGate t ty then
    if fsMem st.fs p then (some .io, st)
    else writeFile { st with fs := fsInsert st.fs p "" } p t ty lvl
  else (none, st)

/-- Function update_file from run.rs: overwrite-existing materialization;
the open with truncate but without create fails when the path does not
exist, and otherwise truncates before writing. -/
def updateFile (st : St) (path : String) (parts : List String) (t : Templates)
    (ty : TemplateType) (lvl : Level) : Option Err × St :=
  let p := path :: parts
  if fsMem st.fs p then writeFile { st with fs := fsInsert st.fs p "" } p t ty lvl
  else (some .io, st)

/-- Sequencing of fallible state steps: a failure short-circuits, keeping
the state at the point of failure. -/
def seqSt (r : Option Err × St) (f : St → Option Err × St) : Option Err × St :=
  match r with
  | (some e, st) => (some e, st)
  | (none, st) => f st

/-- The external text layer of the toml crate: parsing manifest text into a
structured document and printing a document back to text happen outside this
repository and enter the model as function parameters. -/
abbrev ParseToml := String → Option TomlDoc

/-- Printer half of the external toml text layer. -/
abbrev PrintToml := TomlDoc → String

/-- Manifest merge step of run from run.rs (lines 443 to 482): read
Cargo.toml, parse it, merge the owned fields, and truncate-write the
serialized result back, reporting the update event. -/
def mergeCargoToml (st : St) (pt : ParseToml) (pr : PrintToml) (gl : GetLatest)
    (path : String) (t : Templates) (readme mit apache : Bool) : Option Err × St :=
  let p := [path, "Cargo.toml"]
  match fsLookup st.fs p with
  | none => (some .io, st)
  | some text =>
    match (pt text).bind configFromToml with
    | none => (some .tomlDe, st)
    | some config =>
      let config := mergeConfig config t readme mit apache gl
      if fsMem st.fs p then
        let st := { st with fs := fsInsert st.fs p (pr (configToToml config)) }
        (none, debugEvent st "Updated" "Cargo.toml")
      else (some .io, st)

/-- Tail of run from run.rs after the cargo new child process exits (lines
390 to 487): a non-zero exit code is returned as the program's own result, a
missing exit code is the InvalidExitCode error, and on success the six file
roles are materialized, the manifest is merged, and the final info event is
emitted. -/
def runPost (ecode : Option Int) (pt : ParseToml) (pr : PrintToml) (gl : GetLatest)
    (path name : String) (t : Templates) (readme mit apache : Bool) (lvl : Level)
    (st : St) : Except Err Int × St :=
  if ecode = some 0 then
    let r :=
      seqSt (updateFile st path ["src", "main.rs"] t .main lvl) fun st =>
      seqSt (createFile st path ["src", "error.rs"] t .errorT lvl) fun st =>
      seqSt (createFile st path ["src", "run.rs"] t .run lvl) fun st =>
      seqSt (createFile st path ["LICENSE-MIT"] t .mit lvl) fun st =>
      seqSt (createFile st path ["LICENSE-APACHE"] t .apache lvl) fun st =>
      seqSt (createFile st path ["README.md"] t .readme lvl) fun st =>
      mergeCargoToml st pt pr gl path t readme mit apache
    match r with
    | (some e, st) => (.error e, st)
    | (none, st) =>
      (.ok 0,
        infoEvent st "Created" ("binary cli (application) \x60" ++ name ++ "\x60 project"))
  else
    match ecode with
    | some c => (.ok c, st)
    | none => (.error .invalidExitCode, st)


/-- Verb of the write event each template type's successful write reports in
write_file from run.rs. -/
def eventVerb : TemplateType → String
  | .main => "Updated"
  | .errorT => "Updated"
  | .run => "Updated"
  | .mit => "Created"
  | .apache => "Created"
  | .readme => "Created"

/-- Relative path string carried by each template type's write event in
write_file from run.rs. -/
def eventPath : TemplateType → String
  | .main => "src/main.rs"
  | .errorT => "src/error.rs"
  | .run => "src/run.rs"
  | .mit => "LICENSE-MIT"
  | .apache => "LICENSE-APACHE"
  | .readme => "README.md"

/-- The fixed set of template texts that pass through the renderer: the six
source-file templates, the three license prefixes and the readme. -/
def renderedTemplates : List String :=
  [CLAP_MAIN_RS, CLAP_RUN_RS, CLAP_ERROR_RS, DOCOPT_MAIN_RS, DOCOPT_RUN_RS,
   DOCOPT_ERROR_RS, PREFIX_BOTH, PREFIX_MIT, PREFIX_APACHE, README]

/-- Example manifest document: a valid package table together with one
top-level field the merger does not recognize. -/
def exampleManifest : TomlDoc :=
  [("package", .table [("name", .str "demo"), ("version", .str "0.1.0"),
                       ("authors", .strArr [])]),
   ("extra", .str "x")]

/-- License selection from run.rs (lines 363 to 373): the closed enumeration
of the license flag values. -/
inductive License where
  | both
  | mit
  | apache
  | none
deriving DecidableEq

/-- The (mit, apache) flag pair run.rs derives from each license selection. -/
def licenseFlags : License → Bool × Bool
  | .both => (true, true)
  | .mit => (true, false)
  | .apache => (false, true)
  | .none => (false, false)

theorem new_clap (n : String) (c m a r q : Bool) : (Templates.new n c m a r q).clap = c := by
  cases m <;> cases a <;> cases r <;> cases c <;> rfl

theorem new_query (n : String) (c m a r q : Bool) : (Templates.new n c m a r q).query = q := by
  cases m <;> cases a <;> cases r <;> cases c <;> rfl

theorem new_name (n : String) (c m a r q : Bool) : (Templates.new n c m a r q).name = n := by
  cases m <;> cases a <;> cases r <;> cases c <;> rfl

theorem new_mit (n : String) (c m a r q : Bool) :
    (Templates.new n c m a r q).mit = if m then some LICENSE_MIT else none := by
  cases m <;> cases a <;> cases r <;> cases c <;> rfl

theorem new_apache (n : String) (c m a r q : Bool) :
    (Templates.new n c m a r q).apache = if a then some LICENSE_APACHE else none := by
  cases m <;> cases a <;> cases r <;> cases c <;> rfl

theorem new_readme (n : String) (c m a r q : Bool) :
    (Templates.new n c m a r q).readme = if r then some README else none := by
  cases m <;> cases a <;> cases r <;> cases c <;> rfl

theorem new_mainT (n : String) (c m a r q : Bool) :
    (Templates.new n c m a r q).mainT = if c then CLAP_MAIN_RS else DOCOPT_MAIN_RS := by
  cases m <;> cases a <;> cases r <;> cases c <;> rfl

theorem new_runT (n : String) (c m a r q : Bool) :
    (Templates.new n c m a r q).runT = if c then CLAP_RUN_RS else DOCOPT_RUN_RS := by
  cases m <;> cases a <;> cases r <;> cases c <;> rfl

theorem new_errorT (n : String) (c m a r q : Bool) :
    (Templates.new n c m a r q).errorT = if c then CLAP_ERROR_RS else DOCOPT_ERROR_RS := by
  cases m <;> cases a <;> cases r <;> cases c <;> rfl

theorem new_prefixT (n : String) (c m a r q : Bool) :
    (Templates.new n c m a r q).prefixT =
      if m && a then PREFIX_BOTH
      else if m then PREFIX_MIT
      else if a then PREFIX_APACHE
      else "" := by
  cases m <;> cases a <;> cases r <;> cases c <;> rfl

theorem btLookup_btInsert_self (k v : String) (m : DepsMap) :
    btLookup k (btInsert k v m) = some v := by
  induction m with
  | nil => simp [btInsert, btLookup]
  | cons kv rest ih =>
    obtain ⟨k0, v0⟩ := kv
    by_cases h1 : strLtB k k0 = true
    · simp [btInsert, btLookup, h1]
    · by_cases h2 : k = k0
      · subst h2
        simp [btInsert, btLookup, h1]
      · have h3 : ¬ k0 = k := fun h => h2 h.symm
        simp [btInsert, btLookup, h1, h2, h3, ih]

theorem btLookup_btInsert_ne (k k' v : String) (m : DepsMap) (h : k' ≠ k) :
    btLookup k' (btInsert k v m) = btLookup k' m := by
  have hk : ¬ k = k' := fun hh => h hh.symm
  induction m with
  | nil => simp [btInsert, btLookup, hk]
  | cons kv rest ih =>
    obtain ⟨k0, v0⟩ := kv
    by_cases h1 : strLtB k k0 = true
    · simp [btInsert, btLookup, h1, hk]
    · by_cases h2 : k = k0
      · subst h2
        simp [btInsert, btLookup, h1, hk]
      · simp [btInsert, btLookup, h1, h2, ih]

theorem mustacheOk_clap_main : mustacheOk CLAP_MAIN_RS.data = true := by decide

theorem mustacheOk_clap_run : mustacheOk CLAP_RUN_RS.data = true := by decide

theorem mustacheOk_clap_error : mustacheOk CLAP_ERROR_RS.data = true := by decide

theorem mustacheOk_docopt_main : mustacheOk DOCOPT_MAIN_RS.data = true := by decide

theorem mustacheOk_docopt_run : mustacheOk DOCOPT_RUN_RS.data = true := by decide

theorem mustacheOk_docopt_error : mustacheOk DOCOPT_ERROR_RS.data = true := by decide

theorem mustacheOk_prefix_both : mustacheOk PREFIX_BOTH.data = true := by decide

theorem mustacheOk_prefix_mit : mustacheOk PREFIX_MIT.data = true := by decide

theorem mustacheOk_prefix_apache : mustacheOk PREFIX_APACHE.data = true := by decide

theorem mustacheOk_readme_tmpl : mustacheOk README.data = true := by decide

theorem mRender_of_ok (t name : String) (h : mustacheOk t.data = true) :
    mRender t name = .ok (String.mk (substName name.data t.data)) := by
  simp [mRender, h]


/-- C5: when queryLatestVersions is false the version resolver is never
invoked (the built dependency set is the same for every resolver) and every
dependency receives exactly its documented fallback constant: error-chain
0.10.0 and clap 2.25.0 for the clap variant; error-chain 0.10.0, docopt
0.8.1, serde_derive 1.0.9 and serde 1.0.9 for the docopt variant. -/
theorem c5_fallback_determinism (name : String) (mit apache readme : Bool)
    (gl gl' : GetLatest) (d : DepsMap) :
    addDeps (Templates.new name true mit apache readme false) gl d
      = addDeps (Templates.new name true mit apache readme false) gl' d
    ∧ addDeps (Templates.new name false mit apache readme false) gl d
      = addDeps (Templates.new name false mit apache readme false) gl' d
    ∧ addDeps (Templates.new name true mit apache readme false) gl []
      = [("clap", "2.25.0"), ("error-chain", "0.10.0")]
    ∧ addDeps (Templates.new name false mit apache readme false) gl []
      = [("docopt", "0.8.1"), ("error-chain", "0.10.0"),
         ("serde", "1.0.9"), ("serde_derive", "1.0.9")] := by
  refine ⟨?_, ?_, ?_, ?_⟩ <;> simp [addDeps, new_clap, new_query] <;> decide

/-- C6: when queryLatestVersions is true and the registry lookup for a
package fails, the dependency set still receives that package's hard-coded
fallback version; addDeps is total, so no error reaches its caller. -/
theorem c6_fail_soft (name : String) (mit apache readme : Bool) (d : DepsMap)
    (gl : GetLatest) :
    (gl "error-chain" = .error () →
      btLookup "error-chain"
        (addDeps (Templates.new name true mit apache readme true) gl d) = some "0.10.0")
    ∧ (gl "clap" = .error () →
      btLookup "clap"
        (addDeps (Templates.new name true mit apache readme true) gl d) = some "2.25.0")
    ∧ (gl "error-chain" = .error () →
      btLookup "error-chain"
        (addDeps (Templates.new name false mit apache readme true) gl d) = some "0.10.0")
    ∧ (gl "docopt" = .error () →
      btLookup "docopt"
        (addDeps (Templates.new name false mit apache readme true) gl d) = some "0.8.1")
    ∧ (gl "serde_derive" = .error () →
      btLookup "serde_derive"
        (addDeps (Templates.new name false mit apache readme true) gl d) = some "1.0.9")
    ∧ (gl "serde" = .error () →
      btLookup "serde"
        (addDeps (Templates.new name false mit apache readme true) gl d) = some "1.0.9") := by
  refine ⟨?_, ?_, ?_, ?_, ?_, ?_⟩ <;> intro h <;>
    simp [addDeps, new_clap, new_query, h, unwrapOrFb] <;>
    simp [btLookup_btInsert_self, btLookup_btInsert_ne, String.ne_of_data_ne]

/-- C6 witness at the always-failing resolver. -/
theorem c6_fail_soft_witness :
    btLookup "clap"
      (addDeps (Templates.new "demo" true true true true true) (fun _ => .error ()) [])
      = some "2.25.0" :=
  (c6_fail_soft "demo" true true true [] (fun _ => .error ())).2.1 rfl

/-- C7: for every license choice the template assets satisfy the presence
invariant: the MIT body is present iff the choice is Both or Mit, the Apache
body iff Both or Apache, and the source-file license prefix fragment is
non-empty iff at least one body is present. -/
theorem c7_license_invariant (choice : License) (name : String) (clap readme query : Bool) :
    ((Templates.new name clap (licenseFlags choice).1 (licenseFlags choice).2
        readme query).mit.isSome = true
      ↔ (choice = License.both ∨ choice = License.mit))
    ∧ ((Templates.new name clap (licenseFlags choice).1 (licenseFlags choice).2
        readme query).apache.isSome = true
      ↔ (choice = License.both ∨ choice = License.apache))
    ∧ ((Templates.new name clap (licenseFlags choice).1 (licenseFlags choice).2
        readme query).prefixT ≠ ""
      ↔ ((Templates.new name clap (licenseFlags choice).1 (licenseFlags choice).2
            readme query).mit.isSome = true
         ∨ (Templates.new name clap (licenseFlags choice).1 (licenseFlags choice).2
            readme query).apache.isSome = true)) := by
  cases choice <;>
    refine ⟨?_, ?_, ?_⟩ <;>
    simp [licenseFlags, new_mit, new_apache, new_prefixT] <;>
    decide

/-- C4: whenever the external initializer exits with a non-zero exit code,
the orchestration short-circuits: the exit code becomes the program's own
result unchanged, the filesystem and event log are untouched, and no file
materialization or manifest merge is attempted (the result does not depend
on the toml, registry or filesystem collaborators). -/
theorem c4_nonzero_exit_short_circuit (c : Int) (pt : ParseToml) (pr : PrintToml)
    (gl : GetLatest) (path name : String) (t : Templates) (readme mit apache : Bool)
    (lvl : Level) (st : St) (h : c ≠ 0) :
    runPost (some c) pt pr gl path name t readme mit apache lvl st = (.ok c, st) := by
  have h0 : ¬ ((some c : Option Int) = some 0) := by simpa using h
  simp [runPost, h0]

/-- C4 witness at exit code 3. -/
theorem c4_nonzero_exit_short_circuit_witness :
    runPost (some 3) (fun _ => Option.none) (fun _ => "") (fun _ => .error ())
      "p" "demo" (Templates.new "demo" true true true true false) true true true
      Level.info { fs := [], events := [] }
      = (.ok 3, { fs := [], events := [] }) :=
  c4_nonzero_exit_short_circuit 3 _ _ _ _ _ _ _ _ _ _ _ (by decide)

/-- C10: when the initializer terminates without an exit code the run fails
with the InvalidExitCode error rather than propagating a code, and main
prints that error's display string on the error stream and exits with
code 1. -/
theorem c10_missing_exit_code (pt : ParseToml) (pr : PrintToml) (gl : GetLatest)
    (path name : String) (t : Templates) (readme mit apache : Bool) (lvl : Level)
    (st : St) :
    runPost Option.none pt pr gl path name t readme mit apache lvl st
      = (.error .invalidExitCode, st)
    ∧ mainModel (runPost Option.none pt pr gl path name t readme mit apache lvl st).1
      = (1, [errDisplay Err.invalidExitCode])
    ∧ errDisplay Err.invalidExitCode
      = "An invalid exit code was received from \x27cargo new\x27!" :=
  ⟨rfl, rfl, rfl⟩


/-- C2: create-new-only materialization at an existing path fails with a
filesystem error and performs no write; overwrite-existing materialization
at a missing path fails with a filesystem error; and at an existing path the
entry point is truncated and rewritten through write_file. -/
theorem c2_create_vs_overwrite (st : St) (path : String) (parts : List String)
    (t : Templates) (ty : TemplateType) (lvl : Level) :
    ((ty = TemplateType.errorT ∨ ty = TemplateType.run ∨ ty = TemplateType.mit ∨
      ty = TemplateType.apache ∨ ty = TemplateType.readme) →
     createGate t ty = true →
     fsMem st.fs (path :: parts) = true →
     createFile st path parts t ty lvl = (some Err.io, st))
    ∧ (fsMem st.fs (path :: parts) = false →
       updateFile st path parts t TemplateType.main lvl = (some Err.io, st))
    ∧ (fsMem st.fs (path :: parts) = true →
       updateFile st path parts t TemplateType.main lvl
         = writeFile { st with fs := fsInsert st.fs (path :: parts) "" }
             (path :: parts) t TemplateType.main lvl) := by
  refine ⟨?_, ?_, ?_⟩
  · intro _ hg hm
    simp [createFile, hg, hm]
  · intro hm
    simp [updateFile, hm]
  · intro hm
    simp [updateFile, hm]

/-- C2 witness: a create-new-only role at an existing path and the entry
point at a missing path. -/
theorem c2_create_vs_overwrite_witness :
    createFile { fs := [(["p", "src", "run.rs"], "x")], events := [] } "p"
        ["src", "run.rs"] (Templates.new "demo" true true true true false)
        TemplateType.run Level.info
      = (some Err.io, { fs := [(["p", "src", "run.rs"], "x")], events := [] })
    ∧ updateFile { fs := [], events := [] } "p" ["src", "main.rs"]
        (Templates.new "demo" true true true true false) TemplateType.main Level.info
      = (some Err.io, { fs := [], events := [] }) :=
  ⟨(c2_create_vs_overwrite { fs := [(["p", "src", "run.rs"], "x")], events := [] } "p"
      ["src", "run.rs"] (Templates.new "demo" true true true true false)
      TemplateType.run Level.info).1 (Or.inr (Or.inl rfl)) (by decide) (by decide),
   (c2_create_vs_overwrite { fs := [], events := [] } "p" ["src", "main.rs"]
      (Templates.new "demo" true true true true false)
      TemplateType.main Level.info).2.1 (by decide)⟩

/-- C9: rendering one of the fixed templates is pure literal substitution
for every project name: every template of the set is free of control-flow
constructs, partials and any tag other than the exact name placeholder, and
its rendering succeeds with each placeholder replaced by the name binding
verbatim. -/
theorem c9_render_pure_substitution (t : String) (ht : t ∈ renderedTemplates)
    (name : String) :
    mustacheOk t.data = true
    ∧ mRender t name = .ok (String.mk (substName name.data t.data)) := by
  have h : mustacheOk t.data = true := by
    simp only [renderedTemplates, List.mem_cons, List.not_mem_nil, or_false] at ht
    rcases ht with rfl | rfl | rfl | rfl | rfl | rfl | rfl | rfl | rfl | rfl
    · exact mustacheOk_clap_main
    · exact mustacheOk_clap_run
    · exact mustacheOk_clap_error
    · exact mustacheOk_docopt_main
    · exact mustacheOk_docopt_run
    · exact mustacheOk_docopt_error
    · exact mustacheOk_prefix_both
    · exact mustacheOk_prefix_mit
    · exact mustacheOk_prefix_apache
    · exact mustacheOk_readme_tmpl
  exact ⟨h, mRender_of_ok t name h⟩

/-- C9 witness at the clap entry-point template and the name demo. -/
theorem c9_render_pure_substitution_witness :
    mRender CLAP_MAIN_RS "demo"
      = .ok (String.mk (substName "demo".data CLAP_MAIN_RS.data)) :=
  (c9_render_pure_substitution CLAP_MAIN_RS (by simp [renderedTemplates]) "demo").2


theorem mRender_clap_main (name : String) :
    mRender CLAP_MAIN_RS name = .ok (String.mk (substName name.data CLAP_MAIN_RS.data)) :=
  mRender_of_ok _ _ mustacheOk_clap_main

theorem mRender_clap_run (name : String) :
    mRender CLAP_RUN_RS name = .ok (String.mk (substName name.data CLAP_RUN_RS.data)) :=
  mRender_of_ok _ _ mustacheOk_clap_run

theorem mRender_clap_error (name : String) :
    mRender CLAP_ERROR_RS name = .ok (String.mk (substName name.data CLAP_ERROR_RS.data)) :=
  mRender_of_ok _ _ mustacheOk_clap_error

theorem mRender_docopt_main (name : String) :
    mRender DOCOPT_MAIN_RS name = .ok (String.mk (substName name.data DOCOPT_MAIN_RS.data)) :=
  mRender_of_ok _ _ mustacheOk_docopt_main

theorem mRender_docopt_run (name : String) :
    mRender DOCOPT_RUN_RS name = .ok (String.mk (substName name.data DOCOPT_RUN_RS.data)) :=
  mRender_of_ok _ _ mustacheOk_docopt_run

theorem mRender_docopt_error (name : String) :
    mRender DOCOPT_ERROR_RS name = .ok (String.mk (substName name.data DOCOPT_ERROR_RS.data)) :=
  mRender_of_ok _ _ mustacheOk_docopt_error

theorem mRender_prefix_both (name : String) :
    mRender PREFIX_BOTH name = .ok (String.mk (substName name.data PREFIX_BOTH.data)) :=
  mRender_of_ok _ _ mustacheOk_prefix_both

theorem mRender_prefix_mit (name : String) :
    mRender PREFIX_MIT name = .ok (String.mk (substName name.data PREFIX_MIT.data)) :=
  mRender_of_ok _ _ mustacheOk_prefix_mit

theorem mRender_prefix_apache (name : String) :
    mRender PREFIX_APACHE name = .ok (String.mk (substName name.data PREFIX_APACHE.data)) :=
  mRender_of_ok _ _ mustacheOk_prefix_apache

theorem mRender_readme_tmpl (name : String) :
    mRender README name = .ok (String.mk (substName name.data README.data)) :=
  mRender_of_ok _ _ mustacheOk_readme_tmpl

theorem fsAppendF_events (st : St) (p : List String) (s : String) :
    (fsAppendF st p s).events = st.events := rfl

theorem new_hasLicense (n : String) (c m a r q : Bool) :
    (Templates.new n c m a r q).hasLicense = (m || a) := by
  cases m <;> cases a <;> simp [Templates.hasLicense, new_mit, new_apache]

theorem writePrefix_new_eq (st : St) (p : List String) (n : String) (c m a r q : Bool) :
    writePrefix st p (Templates.new n c m a r q)
      = (Option.none,
         if m || a then
           fsAppendF st p (String.mk (substName n.data
             (if m && a then PREFIX_BOTH else if m then PREFIX_MIT else PREFIX_APACHE).data))
         else st) := by
  cases m <;> cases a <;>
    simp [writePrefix, new_hasLicense, new_prefixT, new_name,
      mRender_prefix_both, mRender_prefix_mit, mRender_prefix_apache]

theorem writeFile_new_ok (st : St) (p : List String) (n : String) (c m a r q : Bool)
    (ty : TemplateType) (lvl : Level)
    (hg : createGate (Templates.new n c m a r q) ty = true) :
    (writeFile st p (Templates.new n c m a r q) ty lvl).1 = Option.none
    ∧ ((writeFile st p (Templates.new n c m a r q) ty lvl).2).events
        = st.events ++ [{ verb := eventVerb ty, msg := eventPath ty }] := by
  cases ty
  case main =>
    cases c <;>
      simp [writeFile, writePrefix_new_eq, new_mainT, new_name, mRender_clap_main,
        mRender_docopt_main, debugEvent, fsAppendF_events, eventVerb, eventPath,
        apply_ite St.events]
  case errorT =>
    cases c <;>
      simp [writeFile, writePrefix_new_eq, new_errorT, new_name, mRender_clap_error,
        mRender_docopt_error, debugEvent, fsAppendF_events, eventVerb, eventPath,
        apply_ite St.events]
  case run =>
    cases c <;>
      simp [writeFile, writePrefix_new_eq, new_runT, new_name, mRender_clap_run,
        mRender_docopt_run, debugEvent, fsAppendF_events, eventVerb, eventPath,
        apply_ite St.events]
  case mit =>
    cases m
    · simp [createGate, new_mit] at hg
    · simp [writeFile, new_mit, debugEvent, fsAppendF_events, eventVerb, eventPath]
  case apache =>
    cases a
    · simp [createGate, new_apache] at hg
    · simp [writeFile, new_apache, debugEvent, fsAppendF_events, eventVerb, eventPath]
  case readme =>
    cases r
    · simp [createGate, new_readme] at hg
    · simp [writeFile, Templates.readmeRendered, new_readme, new_name,
        mRender_readme_tmpl, debugEvent, fsAppendF_events, eventVerb, eventPath]

/-- C8 counterexample: the error-module role is create-new-only, yet its
successful write emits the verb Updated, not Created. -/
theorem c8_create_role_updated_verb_counterexample :
    (createFile { fs := [], events := [] } "p" ["src", "error.rs"]
        (Templates.new "demo" true true true true false) TemplateType.errorT Level.info).1
      = Option.none
    ∧ ((createFile { fs := [], events := [] } "p" ["src", "error.rs"]
        (Templates.new "demo" true true true true false) TemplateType.errorT Level.info).2).events
      = [{ verb := "Updated", msg := "src/error.rs" }] := by
  exact ⟨by decide, by decide⟩

/-- C8 as amended: every successful, non-gated file write emits exactly one
write event carrying the role's fixed relative path, with the verb Updated
for the three source-file roles (entry point, runtime, error module) and
Created for the license and readme roles. -/
theorem c8_write_event_verbs (st : St) (path : String) (parts : List String)
    (n : String) (c m a r q : Bool) (lvl : Level) (ty : TemplateType) :
    (fsMem st.fs (path :: parts) = true →
      (updateFile st path parts (Templates.new n c m a r q) TemplateType.main lvl).1
        = Option.none
      ∧ ((updateFile st path parts (Templates.new n c m a r q) TemplateType.main lvl).2).events
          = st.events ++ [{ verb := eventVerb TemplateType.main,
                            msg := eventPath TemplateType.main }])
    ∧ (createGate (Templates.new n c m a r q) ty = true →
       fsMem st.fs (path :: parts) = false →
       (createFile st path parts (Templates.new n c m a r q) ty lvl).1 = Option.none
       ∧ ((createFile st path parts (Templates.new n c m a r q) ty lvl).2).events
           = st.events ++ [{ verb := eventVerb ty, msg := eventPath ty }]) := by
  constructor
  · intro hm
    have h := writeFile_new_ok { st with fs := fsInsert st.fs (path :: parts) "" }
      (path :: parts) n c m a r q TemplateType.main lvl rfl
    simpa [updateFile, hm] using h
  · intro hg hm
    have h := writeFile_new_ok { st with fs := fsInsert st.fs (path :: parts) "" }
      (path :: parts) n c m a r q ty lvl hg
    simpa [createFile, hg, hm] using h

/-- C8 witness: a successful license write emits the Created event. -/
theorem c8_write_event_verbs_witness :
    (createFile { fs := [], events := [] } "p" ["LICENSE-MIT"]
        (Templates.new "demo" true true true true false) TemplateType.mit Level.info).1
      = Option.none
    ∧ ((createFile { fs := [], events := [] } "p" ["LICENSE-MIT"]
        (Templates.new "demo" true true true true false) TemplateType.mit Level.info).2).events
      = [] ++ [{ verb := eventVerb TemplateType.mit, msg := eventPath TemplateType.mit }] :=
  (c8_write_event_verbs { fs := [], events := [] } "p" ["LICENSE-MIT"]
    "demo" true true true true false Level.info TemplateType.mit).2 (by decide) (by decide)


theorem btLookup_addDeps (t : Templates) (gl : GetLatest) (d : DepsMap) (k : String) :
    btLookup k (addDeps t gl d)
      = (match btLookup k (addDeps t gl []) with
         | some v => some v
         | Option.none => btLookup k d) := by
  have ne_ec_cl : ("error-chain" : String) ≠ "clap" := by decide
  have ne_ec_dc : ("error-chain" : String) ≠ "docopt" := by decide
  have ne_s_dc : ("serde" : String) ≠ "docopt" := by decide
  have ne_s_ec : ("serde" : String) ≠ "error-chain" := by decide
  have ne_sd_dc : ("serde_derive" : String) ≠ "docopt" := by decide
  have ne_sd_ec : ("serde_derive" : String) ≠ "error-chain" := by decide
  have ne_sd_s : ("serde_derive" : String) ≠ "serde" := by decide
  cases hc : t.clap
  case true =>
    simp only [addDeps, hc, if_true]
    by_cases h1 : k = "clap"
    · subst h1
      simp [btLookup_btInsert_self]
    · by_cases h2 : k = "error-chain"
      · subst h2
        simp [btLookup_btInsert_ne _ _ _ _ ne_ec_cl, btLookup_btInsert_self]
      · simp [btLookup_btInsert_ne _ _ _ _ h1, btLookup_btInsert_ne _ _ _ _ h2, btLookup,
          Ne.symm h1, Ne.symm h2]
  case false =>
    simp only [addDeps, hc, Bool.false_eq_true, if_false]
    by_cases h1 : k = "docopt"
    · subst h1
      simp [btLookup_btInsert_self]
    · by_cases h2 : k = "error-chain"
      · subst h2
        simp [btLookup_btInsert_ne _ _ _ _ ne_ec_dc, btLookup_btInsert_self]
      · by_cases h3 : k = "serde"
        · subst h3
          simp [btLookup_btInsert_ne _ _ _ _ ne_s_dc, btLookup_btInsert_ne _ _ _ _ ne_s_ec,
            btLookup_btInsert_self]
        · by_cases h4 : k = "serde_derive"
          · subst h4
            simp [btLookup_btInsert_ne _ _ _ _ ne_sd_dc, btLookup_btInsert_ne _ _ _ _ ne_sd_ec,
              btLookup_btInsert_ne _ _ _ _ ne_sd_s, btLookup_btInsert_self]
          · simp [btLookup_btInsert_ne _ _ _ _ h1, btLookup_btInsert_ne _ _ _ _ h2,
              btLookup_btInsert_ne _ _ _ _ h3, btLookup_btInsert_ne _ _ _ _ h4, btLookup,
              Ne.symm h1, Ne.symm h2, Ne.symm h3, Ne.symm h4]

theorem mergeConfig_dependencies (cfg : Config) (t : Templates) (readme mit apache : Bool)
    (gl : GetLatest) :
    (mergeConfig cfg t readme mit apache gl).dependencies
      = some (addDeps t gl (cfg.dependencies.getD [])) := by
  cases h : cfg.dependencies <;> simp [mergeConfig, h]

theorem mergeConfig_readme (cfg : Config) (t : Templates) (readme mit apache : Bool)
    (gl : GetLatest) :
    (mergeConfig cfg t readme mit apache gl).package.readme
      = if readme then some CARGO_TOML_README else cfg.package.readme := by
  cases readme <;> cases mit <;> cases apache <;> simp [mergeConfig]

theorem mergeConfig_license (cfg : Config) (t : Templates) (readme mit apache : Bool)
    (gl : GetLatest) :
    (mergeConfig cfg t readme mit apache gl).package.license
      = if mit && apache then some CARGO_TOML_BOTH
        else if mit then some CARGO_TOML_MIT
        else if apache then some CARGO_TOML_APACHE
        else cfg.package.license := by
  cases readme <;> cases mit <;> cases apache <;> simp [mergeConfig]

/-- C3: the merge postcondition on the owned fields: every entry of the
freshly built dependency set is present in the merged dependency mapping,
entries with other keys are exactly those of the original mapping, the
readme field is set to the fixed filename exactly when requested, and the
license field is set by the license choice and left untouched for None. -/
theorem c3_merge_postconditions (cfg : Config) (choice : License) (name : String)
    (readme query clap : Bool) (gl : GetLatest) :
    (∀ k v,
      btLookup k (addDeps (Templates.new name clap (licenseFlags choice).1
          (licenseFlags choice).2 readme query) gl []) = some v →
      btLookup k ((mergeConfig cfg (Templates.new name clap (licenseFlags choice).1
          (licenseFlags choice).2 readme query) readme (licenseFlags choice).1
          (licenseFlags choice).2 gl).dependencies.getD []) = some v)
    ∧ (∀ k,
      btLookup k (addDeps (Templates.new name clap (licenseFlags choice).1
          (licenseFlags choice).2 readme query) gl []) = Option.none →
      btLookup k ((mergeConfig cfg (Templates.new name clap (licenseFlags choice).1
          (licenseFlags choice).2 readme query) readme (licenseFlags choice).1
          (licenseFlags choice).2 gl).dependencies.getD [])
        = btLookup k (cfg.dependencies.getD []))
    ∧ (mergeConfig cfg (Templates.new name clap (licenseFlags choice).1
          (licenseFlags choice).2 readme query) readme (licenseFlags choice).1
          (licenseFlags choice).2 gl).package.readme
        = (if readme then some CARGO_TOML_README else cfg.package.readme)
    ∧ (mergeConfig cfg (Templates.new name clap (licenseFlags choice).1
          (licenseFlags choice).2 readme query) readme (licenseFlags choice).1
          (licenseFlags choice).2 gl).package.license
        = (match choice with
           | .both => some CARGO_TOML_BOTH
           | .mit => some CARGO_TOML_MIT
           | .apache => some CARGO_TOML_APACHE
           | .none => cfg.package.license) := by
  refine ⟨?_, ?_, ?_, ?_⟩
  · intro k v hk
    rw [mergeConfig_dependencies]
    simp only [Option.getD_some]
    rw [btLookup_addDeps, hk]
  · intro k hk
    rw [mergeConfig_dependencies]
    simp only [Option.getD_some]
    rw [btLookup_addDeps, hk]
  · exact mergeConfig_readme _ _ _ _ _ _
  · rw [mergeConfig_license]
    cases choice <;> simp [licenseFlags]

/-- C3 witness: merging the clap dependency set without querying into a
manifest holding one unrelated dependency. -/
theorem c3_merge_postconditions_witness :
    btLookup "clap"
      ((mergeConfig
          { package := { name := "demo", version := "0.1.0", authors := [],
                         license := Option.none, readme := Option.none },
            dependencies := some [("beta", "2.0.0")] }
          (Templates.new "demo" true (licenseFlags License.both).1
            (licenseFlags License.both).2 true false)
          true (licenseFlags License.both).1 (licenseFlags License.both).2
          (fun _ => .error ())).dependencies.getD [])
      = some "2.25.0" :=
  (c3_merge_postconditions
    { package := { name := "demo", version := "0.1.0", authors := [],
                   license := Option.none, readme := Option.none },
      dependencies := some [("beta", "2.0.0")] }
    License.both "demo" true false true (fun _ => .error ())).1 "clap" "2.25.0" (by decide)


theorem packageToToml_keys (p : Package) :
    ∀ k ∈ (packageToToml p).map Prod.fst,
      k ∈ ["name", "version", "authors", "license", "readme"] := by
  cases hl : p.license <;> cases hr : p.readme <;> simp [packageToToml, hl, hr]

/-- C1 counterexample: a manifest that parses successfully and carries the
unrecognized top-level field extra loses that field in the load-merge-store
round trip: the serialized output no longer contains the key at all. -/
theorem c1_unknown_field_dropped_counterexample :
    (mergeManifestDoc exampleManifest (Templates.new "demo" true true true true false)
        true true true (fun _ => .error ())).isSome = true
    ∧ (docLookup "extra" exampleManifest).isSome = true
    ∧ (docLookup "extra"
        ((mergeManifestDoc exampleManifest (Templates.new "demo" true true true true false)
          true true true (fun _ => .error ())).getD [])).isNone = true := by
  exact ⟨by decide, by decide, by decide⟩

/-- C1 as amended: the load-merge-store round trip preserves only the fields
the merger recognizes: the serialized output consists of exactly the package
and dependencies sections, and inside package only the five known field
names can occur, so every unrecognized field of the input is dropped. -/
theorem c1_round_trip_known_fields_only (doc : TomlDoc) (t : Templates)
    (readme mit apache : Bool) (gl : GetLatest) (out : TomlDoc)
    (h : mergeManifestDoc doc t readme mit apache gl = some out) :
    out.map Prod.fst = ["package", "dependencies"]
    ∧ (∀ ptbl, docLookup "package" out = some (TomlVal.table ptbl) →
        ∀ k ∈ ptbl.map Prod.fst, k ∈ ["name", "version", "authors", "license", "readme"]) := by
  obtain ⟨c, hc, hout⟩ :
      ∃ c, configFromToml doc = some c
        ∧ out = configToToml (mergeConfig c t readme mit apache gl) := by
    cases hp : configFromToml doc with
    | none => simp [mergeManifestDoc, hp] at h
    | some c =>
      refine ⟨c, rfl, ?_⟩
      have := h
      simp only [mergeManifestDoc, hp, Option.map_some] at this
      exact (Option.some.injEq _ _ ▸ this).symm
  subst hout
  constructor
  · rw [configToToml, mergeConfig_dependencies]
    rfl
  · intro ptbl hp k hk
    rw [configToToml] at hp
    have hpt : ptbl = packageToToml (mergeConfig c t readme mit apache gl).package := by
      have h2 := hp
      simp [docLookup] at h2
      exact h2.symm
    subst hpt
    exact packageToToml_keys _ k hk

/-- C1 amended-claim witness at the example manifest. -/
theorem c1_round_trip_known_fields_only_witness :
    (((mergeManifestDoc exampleManifest (Templates.new "demo" true true true true false)
        true true true (fun _ => .error ())).getD []).map Prod.fst)
      = ["package", "dependencies"] :=
  (c1_round_trip_known_fields_only exampleManifest
    (Templates.new "demo" true true true true false) true true true
    (fun _ => .error ()) _ rfl).1

end CargoCli
